import Mathlib

/-!
Verification of the AutoGrow resilient-call core against its specification.

The development shallowly embeds the two subsystems named by the spec:

* `src/utils/deduplication.py` — `IssueDuplicateChecker` with its three
  similarity metrics (difflib `SequenceMatcher.ratio`, token Jaccard),
  combined scoring, duplicate decision and batch filtering.
* `src/utils/retry.py` and `src/utils/retry_handler.py` — retry
  configuration, failure classification (`should_retry`), backoff delay
  calculation with jitter, and the retry loop of `retry_with_backoff`.

Python strings are embedded as `List Char`; Python floats as `ℚ` (the code
performs only field arithmetic, `min`/`max` and comparisons); a Python
function that may raise is embedded as a function into `Except`/`Option`.
Random draws (`random.uniform(-a, a)` normalised to a factor in `[-1, 1]`,
`random.random()` in `[0, 1)`) are passed in explicitly as parameters.
-/

namespace AutoGrow

/-! ### Text normalisation (`IssueDuplicateChecker.normalize_text`) -/

/-- Python regex `\w` on an ASCII alphabet: alphanumeric or underscore. -/
def isWordChar (c : Char) : Bool := c.isAlphanum || c = '_'

/-- Collapse every maximal whitespace run into a single `' '`
(`re.sub(r'\s+', ' ', text)`). -/
def collapseWs (l : List Char) : List Char :=
  l.foldr (fun c acc =>
    if c.isWhitespace then
      match acc with
      | ' ' :: _ => acc
      | _ => ' ' :: acc
    else c :: acc) []

/-- Python `str.strip()`: drop leading and trailing whitespace. -/
def stripChars (l : List Char) : List Char :=
  ((l.dropWhile Char.isWhitespace).reverse.dropWhile Char.isWhitespace).reverse

/-- `IssueDuplicateChecker.normalize_text`: empty-guard, lowercase, replace
characters that are neither word characters nor whitespace by a space
(`re.sub(r'[^\w\s]', ' ', text)`), collapse whitespace runs, strip. -/
def normalize_text (text : List Char) : List Char :=
  if text = [] then []
  else
    stripChars (collapseWs (text.map (fun c =>
      let lc := c.toLower
      if isWordChar lc || lc.isWhitespace then lc else ' ')))

/-- Python `str.split()` (no separator): maximal non-whitespace runs, with
empty pieces discarded. -/
def splitWords (l : List Char) : List (List Char) :=
  let p := l.foldr (fun c (acc : List Char × List (List Char)) =>
    if c.isWhitespace then
      ([], if acc.1 = [] then acc.2 else acc.1 :: acc.2)
    else (c :: acc.1, acc.2)) ([], [])
  if p.1 = [] then p.2 else p.1 :: p.2

/-! ### difflib `SequenceMatcher` (used by `calculate_sequence_similarity`)

The checker always builds `SequenceMatcher(None, norm1, norm2)`: the junk
predicate `isjunk` is `None`, so `bjunk` is always empty and the two
junk-extension loops of `find_longest_match` never fire; the autojunk
heuristic only removes popular elements from the `b2j` index. -/

/-- Ascending occurrence indices of `c` in `b` (the `b2j` chains). -/
def indicesOf (c : Char) (b : List Char) : List Nat :=
  (List.range b.length).filter (fun j => b.get? j = some c)

/-- The `b2j` index after the autojunk purge: when `len(b) >= 200`, an
element occurring more than `len(b) // 100 + 1` times is dropped. -/
def b2j (b : List Char) (c : Char) : List Nat :=
  if b.length ≥ 200 ∧ (b.filter (fun x => x = c)).length > b.length / 100 + 1 then []
  else indicesOf c b

/-- Result of `find_longest_match`: block start in `a`, start in `b`, size. -/
structure FLM where
  besti : Nat
  bestj : Nat
  bestsize : Nat
deriving Repr, DecidableEq

/-- Lookup in the `j2len` association list, defaulting to `0`
(`j2len.get(j-1, 0)`); a key of `-1` (Python, when `j = 0`) is never
present, hence the explicit zero case. -/
def j2get (m : List (Nat × Nat)) (j : Nat) : Nat :=
  match m.find? (fun p => p.1 = j) with
  | some p => p.2
  | none => 0

/-- Inner loop of `find_longest_match` over the occurrence list of `a[i]`,
threading the fresh `newj2len` table and the running best block. -/
def flmInner (j2len : List (Nat × Nat)) (i : Nat) (js : List Nat) (st : FLM) :
    List (Nat × Nat) × FLM :=
  js.foldl (fun (acc : List (Nat × Nat) × FLM) j =>
    let k := (if j = 0 then 0 else j2get j2len (j - 1)) + 1
    let newj2len := (j, k) :: acc.1
    if k > acc.2.bestsize then
      (newj2len, ⟨i + 1 - k, j + 1 - k, k⟩)
    else (newj2len, acc.2)) ([], st)

/-- Outer dynamic-programming loop of `find_longest_match`: for each
`i ∈ [alo, ahi)` process the occurrences of `a[i]` in `b` restricted to
`[blo, bhi)` (the `continue`/`break` bounds; the occurrence lists are
ascending, so the bounds amount to a filter). -/
def flmScan (a : List Char) (bj : Char → List Nat) (alo ahi blo bhi : Nat) : FLM :=
  ((List.range' alo (ahi - alo)).foldl
    (fun (acc : List (Nat × Nat) × FLM) i =>
      let js := (bj (a.getD i ' ')).filter (fun j => decide (blo ≤ j ∧ j < bhi))
      flmInner acc.1 i js acc.2)
    ([], ⟨alo, blo, 0⟩)).2

/-- Extension of the best block downwards (`while besti > alo and
bestj > blo and a[besti-1] == b[bestj-1]`; the junk test is vacuous since
`bjunk` is empty).  `fuel` bounds the iteration count; `fuel = besti`
always suffices since `besti` strictly decreases. -/
def extendLo (a b : List Char) (alo blo : Nat) :
    Nat → Nat → Nat → Nat → Nat × Nat × Nat
  | 0, besti, bestj, bestsize => (besti, bestj, bestsize)
  | fuel + 1, besti, bestj, bestsize =>
    if alo < besti ∧ blo < bestj ∧ a.getD (besti - 1) ' ' = b.getD (bestj - 1) ' ' then
      extendLo a b alo blo fuel (besti - 1) (bestj - 1) (bestsize + 1)
    else (besti, bestj, bestsize)

/-- Extension of the best block upwards (`while besti+bestsize < ahi and
bestj+bestsize < bhi and a[besti+bestsize] == b[bestj+bestsize]`).
`fuel = bhi` always suffices since `bestj + bestsize < bhi` is required
and `bestsize` strictly increases. -/
def extendHi (a b : List Char) (ahi bhi : Nat) :
    Nat → Nat → Nat → Nat → Nat × Nat × Nat
  | 0, besti, bestj, bestsize => (besti, bestj, bestsize)
  | fuel + 1, besti, bestj, bestsize =>
    if besti + bestsize < ahi ∧ bestj + bestsize < bhi ∧
        a.getD (besti + bestsize) ' ' = b.getD (bestj + bestsize) ' ' then
      extendHi a b ahi bhi fuel besti bestj (bestsize + 1)
    else (besti, bestj, bestsize)

/-- `SequenceMatcher.find_longest_match` on the window
`a[alo:ahi] × b[blo:bhi]`. -/
def find_longest_match (a b : List Char) (alo ahi blo bhi : Nat) : FLM :=
  let st := flmScan a (b2j b) alo ahi blo bhi
  let lo := extendLo a b alo blo st.besti st.besti st.bestj st.bestsize
  let hi := extendHi a b ahi bhi bhi lo.1 lo.2.1 lo.2.2
  ⟨hi.1, hi.2.1, hi.2.2⟩

/-- Total size of the matching blocks of `get_matching_blocks` on a window
(the recursive divide-and-conquer around each longest match).  Only the
sum of block sizes is needed for `ratio`; the sort-and-merge step of
`get_matching_blocks` preserves that sum.  `fuel` bounds the recursion
depth; each recursive window is strictly smaller, so
`a.length + b.length + 1` always suffices. -/
def matchesAux (a b : List Char) : Nat → Nat → Nat → Nat → Nat → Nat
  | 0, _, _, _, _ => 0
  | fuel + 1, alo, ahi, blo, bhi =>
    let m := find_longest_match a b alo ahi blo bhi
    if m.bestsize = 0 then 0
    else
      (if alo < m.besti ∧ blo < m.bestj then
        matchesAux a b fuel alo m.besti blo m.bestj else 0) +
      m.bestsize +
      (if m.besti + m.bestsize < ahi ∧ m.bestj + m.bestsize < bhi then
        matchesAux a b fuel (m.besti + m.bestsize) ahi (m.bestj + m.bestsize) bhi else 0)

/-- Sum of matching-block sizes over the whole strings (`matches` in
`SequenceMatcher.ratio`). -/
def matchesTotal (a b : List Char) : Nat :=
  matchesAux a b (a.length + b.length + 1) 0 a.length 0 b.length

/-- `SequenceMatcher.ratio`, via difflib `_calculate_ratio`:
`2.0 * matches / length` when `length` is nonzero, else `1.0`. -/
def ratio (a b : List Char) : ℚ :=
  let total := a.length + b.length
  if total = 0 then 1 else (2 * matchesTotal a b : ℚ) / total

/-! ### Similarity metrics and duplicate decision -/

/-- `IssueDuplicateChecker.calculate_sequence_similarity`: guard on falsy
(empty) inputs, then `SequenceMatcher(None, norm1, norm2).ratio()`. -/
def calculate_sequence_similarity (text1 text2 : List Char) : ℚ :=
  if text1 = [] ∨ text2 = [] then 0
  else ratio (normalize_text text1) (normalize_text text2)

/-- `IssueDuplicateChecker.calculate_jaccard_similarity`: guard on falsy
inputs, split normalised texts into token sets, `|∩| / |∪|`. -/
def calculate_jaccard_similarity (text1 text2 : List Char) : ℚ :=
  if text1 = [] ∨ text2 = [] then 0
  else
    let words1 := (splitWords (normalize_text text1)).toFinset
    let words2 := (splitWords (normalize_text text2)).toFinset
    if words1 = ∅ ∨ words2 = ∅ then 0
    else
      let inter := (words1 ∩ words2).card
      let uni := (words1 ∪ words2).card
      if 0 < uni then (inter : ℚ) / uni else 0

/-- The score dictionary returned by `calculate_combined_similarity`. -/
structure SimilarityScores where
  title_similarity : ℚ
  body_similarity : ℚ
  combined_similarity : ℚ
  title_sequence : ℚ
  title_jaccard : ℚ
  body_sequence : ℚ
  body_jaccard : ℚ
deriving Repr, DecidableEq

/-- `IssueDuplicateChecker.calculate_combined_similarity`. -/
def calculate_combined_similarity (title1 body1 title2 body2 : List Char) :
    SimilarityScores :=
  let title_seq_sim := calculate_sequence_similarity title1 title2
  let title_jaccard_sim := calculate_jaccard_similarity title1 title2
  let title_similarity := max title_seq_sim title_jaccard_sim
  let body_seq_sim := calculate_sequence_similarity body1 body2
  let body_jaccard_sim := calculate_jaccard_similarity body1 body2
  let body_similarity := max body_seq_sim body_jaccard_sim
  let combined_score := title_similarity * (7/10) + body_similarity * (3/10)
  { title_similarity := title_similarity
    body_similarity := body_similarity
    combined_similarity := combined_score
    title_sequence := title_seq_sim
    title_jaccard := title_jaccard_sim
    body_sequence := body_seq_sim
    body_jaccard := body_jaccard_sim }

/-- Threshold configuration held by `IssueDuplicateChecker.__init__`. -/
structure IssueDuplicateChecker where
  title_threshold : ℚ
  body_threshold : ℚ
  combined_threshold : ℚ
deriving Repr, DecidableEq

/-- `IssueDuplicateChecker.is_duplicate`. -/
def is_duplicate (checker : IssueDuplicateChecker)
    (new_title new_body existing_title existing_body : List Char) :
    Bool × SimilarityScores :=
  let scores := calculate_combined_similarity new_title new_body existing_title existing_body
  (decide (scores.title_similarity ≥ checker.title_threshold ∨
      scores.combined_similarity ≥ checker.combined_threshold), scores)

/-- An existing GitHub issue object: `find_duplicates` reads `title` and
`body` (a `None` body is replaced by the empty string via `or ''`). -/
structure ExistingIssue where
  title : List Char
  body : Option (List Char)
  number : ℤ

/-- `IssueDuplicateChecker.find_duplicates`: collect all existing issues
flagged by `is_duplicate`, then stable-sort descending by combined
similarity (`list.sort(key=..., reverse=True)`). -/
def find_duplicates (checker : IssueDuplicateChecker) (new_title new_body : List Char)
    (existing_issues : List ExistingIssue) : List (ExistingIssue × SimilarityScores) :=
  let duplicates := existing_issues.foldl (fun acc existing_issue =>
    let existing_title := existing_issue.title
    let existing_body := existing_issue.body.getD []
    let r := is_duplicate checker new_title new_body existing_title existing_body
    if r.1 then acc ++ [(existing_issue, r.2)] else acc) []
  duplicates.mergeSort (fun x y => decide (y.2.combined_similarity ≤ x.2.combined_similarity))

/-- A new-issue record passed to `check_issue_list`: a dict with `title`,
`body` and `labels` keys and possibly further entries, all of which are
carried through untouched. -/
structure NewIssue where
  title : List Char
  body : List Char
  labels : List (List Char)
  extra : List (List Char × List Char)

/-- `IssueDuplicateChecker.check_issue_list`: route each new issue either
to `non_duplicates` or, with its best match and scores, to
`duplicates_found`. -/
def check_issue_list (checker : IssueDuplicateChecker) :
    List NewIssue → List ExistingIssue →
    List NewIssue × List (NewIssue × ExistingIssue × SimilarityScores)
  | [], _ => ([], [])
  | new_issue :: rest, existing_issues =>
    let tail := check_issue_list checker rest existing_issues
    match find_duplicates checker new_issue.title new_issue.body existing_issues with
    | [] => (new_issue :: tail.1, tail.2)
    | (best_match, best_scores) :: _ => (tail.1, (new_issue, best_match, best_scores) :: tail.2)

/-! ### Retry core (`src/utils/retry.py`) -/

/-- `RetryConfig` of `retry.py`: five stored attributes.  `max_retries` is
an arbitrary integer because the constructor performs no validation. -/
structure RetryConfig where
  max_retries : ℤ
  base_delay : ℚ
  max_delay : ℚ
  exponential_base : ℚ
  jitter : Bool
deriving Repr, DecidableEq

/-- Model of `RetryConfig.__init__` (`retry.py` lines 23-45): the body only
stores the five arguments.  `none` would model an exception raised during
construction; no argument is validated, so the result is always `some`. -/
def RetryConfig.mkChecked (max_retries : ℤ) (base_delay max_delay exponential_base : ℚ)
    (jitter : Bool) : Option RetryConfig :=
  some { max_retries := max_retries, base_delay := base_delay, max_delay := max_delay,
         exponential_base := exponential_base, jitter := jitter }

/-- A raised Python exception, as seen by the retry loop: its lowered
message (`str(e)`), whether it is a `RateLimitError`, and in that case its
`retry_after` payload (`None` or a number of seconds). -/
structure PyExc where
  msg : List Char
  isRateLimitError : Bool
  retry_after : Option ℚ
deriving Repr, DecidableEq

/-- The transient-failure message indicators of `should_retry`. -/
def transient_indicators : List (List Char) :=
  ["timeout".toList, "timed out".toList, "connection".toList, "network".toList,
   "temporary".toList, "unavailable".toList, "503".toList, "502".toList,
   "429".toList, "rate limit".toList, "too many requests".toList]

/-- `should_retry(exception, retryable_exceptions)`: retry when the
exception is an instance of the allowlist (`retryable e`, the membership
test `isinstance(exception, retryable_exceptions)`) or when its lowercase
message contains any transient indicator substring. -/
def should_retry (retryable : PyExc → Bool) (e : PyExc) : Bool :=
  retryable e ||
    transient_indicators.any (fun ind => decide (ind <:+: e.msg.map Char.toLower))

/-- `calculate_delay(attempt, config, rate_limit_retry_after)`.  `u` is the
uniform draw of `random.uniform(-jitter_amount, jitter_amount)` normalised
to a factor in `[-1, 1]`. -/
def calculate_delay (attempt : Nat) (config : RetryConfig)
    (rate_limit_retry_after : Option ℚ) (u : ℚ) : ℚ :=
  match rate_limit_retry_after with
  | some r => min r config.max_delay
  | none =>
    let delay := min (config.base_delay * config.exponential_base ^ attempt)
      config.max_delay
    if config.jitter then
      let jitter_amount := delay * (1/4)
      max (1/10) (delay + jitter_amount * u)
    else delay

/-- `calculate_backoff_delay` of `retry_handler.py`.  `r` is the
`random.random()` draw in `[0, 1)`. -/
def calculate_backoff_delay (attempt : Nat)
    (base_delay max_delay multiplier jitter_range : ℚ) (r : ℚ) : ℚ :=
  let delay := min (base_delay * multiplier ^ attempt) max_delay
  let jitter := delay * jitter_range * (2 * r - 1)
  max 0 (delay + jitter)

/-- One pass of the `for attempt in range(max_retries + 1)` loop of
`retry_with_backoff` (`retry.py` lines 164-214).  `op i` is the outcome of
the `i`-th invocation of the wrapped function, `draws i` the jitter draw
used for the delay after attempt `i`.  The result carries the returned
value or raised exception, the number of invocations performed, and the
list of delays slept.  `none` models falling off the loop end
(`raise last_exception`), which only happens when the iteration count is
zero. -/
def retry_attempts (config : RetryConfig) (retryable : PyExc → Bool)
    (op : Nat → Except PyExc α) (draws : Nat → ℚ) :
    Nat → Nat → Option (Except PyExc α × Nat × List ℚ)
  | _, 0 => none
  | attempt, iters + 1 =>
    match op attempt with
    | .ok v => some (.ok v, 1, [])
    | .error e =>
      if (attempt : ℤ) ≥ config.max_retries then some (.error e, 1, [])
      else if should_retry retryable e then
        let hint := if e.isRateLimitError then e.retry_after else none
        let d := calculate_delay attempt config hint (draws attempt)
        match retry_attempts config retryable op draws (attempt + 1) iters with
        | none => none
        | some (res, n, ds) => some (res, n + 1, d :: ds)
      else some (.error e, 1, [])

/-- `retry_with_backoff`: run the attempt loop from attempt `0` with
`max_retries + 1` iterations. -/
def retry_with_backoff (config : RetryConfig) (retryable : PyExc → Bool)
    (op : Nat → Except PyExc α) (draws : Nat → ℚ) :
    Option (Except PyExc α × Nat × List ℚ) :=
  retry_attempts config retryable op draws 0 (config.max_retries + 1).toNat

/-! ### Concrete inputs used by the witnesses -/

/-- Concrete retry policy used by the witnesses: two retries allowed. -/
def cfgW : RetryConfig := ⟨2, 1, 60, 2, true⟩

/-- A concrete retryable-looking exception. -/
def excW : PyExc := ⟨"boom".toList, false, none⟩

/-- A concrete exception with no transient indicator in its message. -/
def fatalExcW : PyExc := ⟨"invalid request".toList, false, none⟩

/-- A concrete exception outside every allowlist whose message carries a
transient indicator. -/
def timeoutExcW : PyExc := ⟨"Read timeout on socket".toList, false, none⟩

/-- A concrete `RateLimitError` (message fixed by its constructor) with an
explicit retry-after hint. -/
def rateLimitExcW : PyExc := ⟨"Rate limit exceeded".toList, true, some 30⟩

/-- A policy with a base delay small enough for the jitter floor to bite. -/
def cfgSmall : RetryConfig := ⟨5, 1/100, 60, 2, true⟩

/-- Concrete jitter-free policy for the C5 witness. -/
def cfgNoJitter : RetryConfig := ⟨5, 1, 60, 2, false⟩

/-! ### Theorems -/

/-- C1: `is_duplicate` returns a pair `(b, scores)` in which `b` holds
exactly when `titleSimilarity ≥ titleThreshold` or `combinedSimilarity ≥
combinedThreshold`, with `combinedSimilarity = 0.7·titleSimilarity +
0.3·bodySimilarity` and each per-field similarity the max of the sequence
and Jaccard similarities of that field. -/
theorem is_duplicate_decision (checker : IssueDuplicateChecker)
    (nt nb et eb : List Char) :
    ((is_duplicate checker nt nb et eb).1 = true ↔
      (is_duplicate checker nt nb et eb).2.title_similarity ≥ checker.title_threshold ∨
      (is_duplicate checker nt nb et eb).2.combined_similarity ≥ checker.combined_threshold) ∧
    (is_duplicate checker nt nb et eb).2.combined_similarity
      = (7/10) * (is_duplicate checker nt nb et eb).2.title_similarity
        + (3/10) * (is_duplicate checker nt nb et eb).2.body_similarity ∧
    (is_duplicate checker nt nb et eb).2.title_similarity
      = max (calculate_sequence_similarity nt et) (calculate_jaccard_similarity nt et) ∧
    (is_duplicate checker nt nb et eb).2.body_similarity
      = max (calculate_sequence_similarity nb eb) (calculate_jaccard_similarity nb eb) := by
  refine ⟨?_, ?_, rfl, rfl⟩
  · simp [is_duplicate]
  · show _ = (7/10 : ℚ) * (max _ _) + (3/10 : ℚ) * (max _ _)
    simp only [is_duplicate, calculate_combined_similarity]
    ring

/-- C7: the `RetryConfig` constructor accepts a negative retry count
together with `maxDelay < baseDelay` without raising — no validation
happens at construction time, contradicting the specified fail-fast
behaviour. -/
theorem retryConfig_no_validation :
    RetryConfig.mkChecked (-1) 1 (1/2) 2 true
      = some { max_retries := -1, base_delay := 1, max_delay := 1/2,
               exponential_base := 2, jitter := true } := rfl

/-- C10: `check_issue_list` routes every input issue, unchanged, to exactly
one of its two outputs — those with no duplicate match to
`non_duplicates`, the rest (paired with a best match) to
`duplicates_found` — preserving the input order within each output. -/
theorem check_issue_list_partition (checker : IssueDuplicateChecker)
    (new_issues : List NewIssue) (existing_issues : List ExistingIssue) :
    (check_issue_list checker new_issues existing_issues).1
      = new_issues.filter
          (fun i => (find_duplicates checker i.title i.body existing_issues).isEmpty) ∧
    (check_issue_list checker new_issues existing_issues).2.map (fun t => t.1)
      = new_issues.filter
          (fun i => !(find_duplicates checker i.title i.body existing_issues).isEmpty) := by
  induction new_issues with
  | nil => exact ⟨rfl, rfl⟩
  | cons i rest ih =>
    cases hfd : find_duplicates checker i.title i.body existing_issues with
    | nil => simp [check_issue_list, hfd, ih.1, ih.2]
    | cons p ps =>
      obtain ⟨bm, bs⟩ := p
      simp [check_issue_list, hfd, ih.1, ih.2]

/-- One-step unfolding of the attempt loop, for controlled rewriting. -/
theorem retry_attempts_succ (config : RetryConfig) (retryable : PyExc → Bool)
    (op : Nat → Except PyExc α) (draws : Nat → ℚ) (attempt iters : Nat) :
    retry_attempts config retryable op draws attempt (iters + 1)
      = match op attempt with
        | .ok v => some (.ok v, 1, [])
        | .error e =>
          if (attempt : ℤ) ≥ config.max_retries then some (.error e, 1, [])
          else if should_retry retryable e then
            match retry_attempts config retryable op draws (attempt + 1) iters with
            | none => none
            | some (res, n, ds) => some (res, n + 1,
                calculate_delay attempt config
                  (if e.isRateLimitError then e.retry_after else none) (draws attempt) :: ds)
          else some (.error e, 1, []) := rfl

/-- Helper for C2: starting from attempt `a` with `k` retries left before
exhaustion, an always-failing retryable operation is invoked `k + 1` more
times and the error of the final invocation is raised. -/
theorem retry_attempts_all_fail (config : RetryConfig) (retryable : PyExc → Bool)
    (op : Nat → Except PyExc α) (draws : Nat → ℚ) (errs : Nat → PyExc)
    (hop : ∀ i, op i = .error (errs i))
    (hretry : ∀ i, should_retry retryable (errs i) = true) :
    ∀ (k a : Nat), config.max_retries = ((a + k : Nat) : ℤ) →
      ∃ ds : List ℚ, retry_attempts config retryable op draws a (k + 1)
        = some (.error (errs (a + k)), k + 1, ds) := by
  intro k
  induction k with
  | zero =>
    intro a hmr
    have hge : (a : ℤ) ≥ config.max_retries := by rw [hmr]; simp
    refine ⟨[], ?_⟩
    rw [retry_attempts_succ, hop a]
    simp [hge]
  | succ k ih =>
    intro a hmr
    obtain ⟨ds, hds⟩ := ih (a + 1) (by rw [hmr]; push_cast; ring)
    have hlt : ¬ ((a : ℤ) ≥ config.max_retries) := by rw [hmr]; push_cast; omega
    have hidx : a + 1 + k = a + (k + 1) := by omega
    rw [hidx] at hds
    refine ⟨calculate_delay a config
      (if (errs a).isRateLimitError then (errs a).retry_after else none) (draws a) :: ds, ?_⟩
    rw [retry_attempts_succ, hop a]
    simp [hds, hlt, hretry a]

/-- C2: when every invocation fails with a retryable error, a policy with
`max_retries = n` performs exactly `n + 1` invocations in total and the
exception finally raised is the very error object raised by the last
invocation, unwrapped. -/
theorem retry_exhaustion_count (config : RetryConfig) (retryable : PyExc → Bool)
    (op : Nat → Except PyExc α) (draws : Nat → ℚ) (errs : Nat → PyExc) (n : Nat)
    (hmr : config.max_retries = (n : ℤ))
    (hop : ∀ i, op i = .error (errs i))
    (hretry : ∀ i, should_retry retryable (errs i) = true) :
    ∃ ds : List ℚ, retry_with_backoff config retryable op draws
      = some (.error (errs n), n + 1, ds) := by
  obtain ⟨ds, hds⟩ := retry_attempts_all_fail config retryable op draws errs hop hretry n 0
    (by simpa using hmr)
  have htn : (config.max_retries + 1).toNat = n + 1 := by omega
  rw [retry_with_backoff, htn]
  exact ⟨ds, by simpa using hds⟩

/-- Witness for C2: a function that always raises, under an allowlist that
matches it, is invoked `2 + 1` times with `max_retries = 2` and the last
error is raised. -/
theorem retry_exhaustion_count_witness :
    cfgW.max_retries = ((2 : Nat) : ℤ) ∧
    (∀ i : Nat, (fun _ : Nat => (Except.error excW : Except PyExc Unit)) i = .error excW) ∧
    (should_retry (fun _ => true) excW = true) ∧
    ∃ ds : List ℚ, retry_with_backoff cfgW (fun _ => true)
        (fun _ : Nat => (Except.error excW : Except PyExc Unit)) (fun _ => 0)
      = some (.error excW, 2 + 1, ds) :=
  ⟨rfl, fun _ => rfl, rfl,
    retry_exhaustion_count cfgW (fun _ => true)
      (fun _ : Nat => (Except.error excW : Except PyExc Unit)) (fun _ => 0)
      (fun _ => excW) 2 rfl (fun _ => rfl) (fun _ => rfl)⟩

/-- C6: an error whose classification is non-retryable (`should_retry`
false) is raised to the caller unchanged after exactly one invocation,
with no retry and no delay slept. -/
theorem retry_fatal_immediate (config : RetryConfig) (retryable : PyExc → Bool)
    (op : Nat → Except PyExc α) (draws : Nat → ℚ) (e : PyExc)
    (hmr : 0 ≤ config.max_retries)
    (hop : op 0 = .error e)
    (hfatal : should_retry retryable e = false) :
    retry_with_backoff config retryable op draws = some (.error e, 1, []) := by
  obtain ⟨k, hk⟩ : ∃ k, (config.max_retries + 1).toNat = k + 1 :=
    ⟨config.max_retries.toNat, by omega⟩
  rw [retry_with_backoff, hk, retry_attempts_succ, hop]
  by_cases hge : (0 : ℤ) ≥ config.max_retries
  · simp [hge]
  · simp [hge, hfatal]

/-- Witness for C6: with an empty allowlist a plain error is raised after
one invocation and no delay. -/
theorem retry_fatal_immediate_witness :
    (0 : ℤ) ≤ cfgW.max_retries ∧
    (fun _ : Nat => (Except.error fatalExcW : Except PyExc Unit)) 0 = .error fatalExcW ∧
    should_retry (fun _ => false) fatalExcW = false ∧
    retry_with_backoff cfgW (fun _ => false)
      (fun _ : Nat => (Except.error fatalExcW : Except PyExc Unit)) (fun _ => 0)
      = some (.error fatalExcW, 1, []) :=
  ⟨by decide, rfl, by decide,
    retry_fatal_immediate cfgW (fun _ => false)
      (fun _ : Nat => (Except.error fatalExcW : Except PyExc Unit)) (fun _ => 0)
      fatalExcW (by decide) rfl (by decide)⟩

/-- Helper: while the attempt counter has not passed `max_retries` and the
iteration budget is exact, the attempt loop always produces a result. -/
theorem retry_attempts_total (config : RetryConfig) (retryable : PyExc → Bool)
    (op : Nat → Except PyExc α) (draws : Nat → ℚ) :
    ∀ (iters attempt : Nat), (attempt : ℤ) + iters = config.max_retries + 1 →
      (attempt : ℤ) ≤ config.max_retries →
      ∃ out, retry_attempts config retryable op draws attempt iters = some out := by
  intro iters
  induction iters with
  | zero => intro attempt h1 h2; push_cast at h1; omega
  | succ k ih =>
    intro attempt h1 h2
    rw [retry_attempts_succ]
    cases hop : op attempt with
    | ok v => exact ⟨_, rfl⟩
    | error e =>
      by_cases hge : (attempt : ℤ) ≥ config.max_retries
      · exact ⟨(.error e, 1, []), by simp [hge]⟩
      · by_cases hsr : should_retry retryable e = true
        · obtain ⟨⟨res, n, ds⟩, hout⟩ := ih (attempt + 1)
            (by push_cast; push_cast at h1; omega) (by push_cast; omega)
          refine ⟨(res, n + 1, calculate_delay attempt config
            (if e.isRateLimitError then e.retry_after else none) (draws attempt) :: ds), ?_⟩
          simp [hge, hsr, hout]
        · exact ⟨(.error e, 1, []), by simp [hge, hsr]⟩

/-- Helper: the attempt loop reports at least one invocation. -/
theorem retry_attempts_count_pos (config : RetryConfig) (retryable : PyExc → Bool)
    (op : Nat → Except PyExc α) (draws : Nat → ℚ) :
    ∀ (iters attempt : Nat) (res : Except PyExc α) (n : Nat) (ds : List ℚ),
      retry_attempts config retryable op draws attempt iters = some (res, n, ds) →
      1 ≤ n := by
  intro iters
  induction iters with
  | zero =>
    intro attempt res n ds h
    simp [retry_attempts] at h
  | succ k ih =>
    intro attempt res n ds h
    rw [retry_attempts_succ] at h
    cases hop : op attempt with
    | ok v =>
      rw [hop] at h
      simp at h
      omega
    | error e =>
      rw [hop] at h
      by_cases hge : (attempt : ℤ) ≥ config.max_retries
      · simp [hge] at h
        omega
      · by_cases hsr : should_retry retryable e = true
        · cases hrec : retry_attempts config retryable op draws (attempt + 1) k with
          | none => simp [hge, hsr, hrec] at h
          | some out =>
            obtain ⟨res', n', ds'⟩ := out
            simp [hge, hsr, hrec] at h
            omega
        · simp [hge, hsr] at h
          omega

/-- C3: a rate-limited failure carrying an explicit retry-after hint `h`
produces a delay of exactly `min h maxDelay`, independently of the attempt
index, the exponential curve and the jitter setting; accordingly the retry
loop sleeps exactly `min h maxDelay` after such a failure. -/
theorem rate_limit_hint_delay (attempt : Nat) (config : RetryConfig) (h u : ℚ)
    (e : PyExc) (retryable : PyExc → Bool) (op : Nat → Except PyExc α)
    (draws : Nat → ℚ)
    (hrl : e.isRateLimitError = true) (hra : e.retry_after = some h)
    (hsr : should_retry retryable e = true)
    (hmr : 1 ≤ config.max_retries) (hop : op 0 = .error e) :
    calculate_delay attempt config (some h) u = min h config.max_delay ∧
    ∃ res n ds, retry_with_backoff config retryable op draws
      = some (res, n, min h config.max_delay :: ds) := by
  refine ⟨rfl, ?_⟩
  obtain ⟨j, hj⟩ : ∃ j, (config.max_retries + 1).toNat = (j + 1) + 1 :=
    ⟨(config.max_retries - 1).toNat, by omega⟩
  obtain ⟨⟨res, n, ds⟩, hout⟩ := retry_attempts_total config retryable op draws
    (j + 1) 1 (by push_cast; omega) (by omega)
  have hge : ¬ ((0 : ℤ) ≥ config.max_retries) := by omega
  refine ⟨res, n + 1, ds, ?_⟩
  rw [retry_with_backoff, hj, retry_attempts_succ, hop]
  simp [hge, hsr, hout, hrl, hra]
  rfl


/-- Witness for C3: a rate-limit error with hint `30` under `cfgW`
(`maxDelay = 60`) sleeps exactly `min 30 60`. -/
theorem rate_limit_hint_delay_witness :
    rateLimitExcW.isRateLimitError = true ∧
    rateLimitExcW.retry_after = some 30 ∧
    should_retry (fun _ => false) rateLimitExcW = true ∧
    (1 : ℤ) ≤ cfgW.max_retries ∧
    (calculate_delay 4 cfgW (some 30) 0 = min 30 cfgW.max_delay ∧
      ∃ res n ds, retry_with_backoff cfgW (fun _ => false)
          (fun _ : Nat => (Except.error rateLimitExcW : Except PyExc Unit)) (fun _ => 0)
        = some (res, n, min 30 cfgW.max_delay :: ds)) :=
  ⟨rfl, rfl, by decide, by decide,
    rate_limit_hint_delay 4 cfgW 30 0 rateLimitExcW (fun _ => false)
      (fun _ : Nat => (Except.error rateLimitExcW : Except PyExc Unit)) (fun _ => 0)
      rfl rfl (by decide) (by decide) rfl⟩

/-- C9: an exception whose type is outside the caller-supplied allowlist is
still classified retryable whenever its lowercase message contains any
transient indicator substring, and the retry loop consequently re-invokes
the operation (at least two invocations) rather than propagating it
immediately as fatal. -/
theorem message_indicator_overrides_allowlist (config : RetryConfig)
    (retryable : PyExc → Bool) (op : Nat → Except PyExc α) (draws : Nat → ℚ)
    (e : PyExc)
    (hInst : retryable e = false)
    (hind : ∃ ind ∈ transient_indicators, ind <:+: e.msg.map Char.toLower)
    (hmr : 1 ≤ config.max_retries)
    (hop : op 0 = .error e) :
    should_retry retryable e = true ∧
    ∃ res n ds, retry_with_backoff config retryable op draws = some (res, n, ds) ∧
      2 ≤ n := by
  obtain ⟨ind, hmem, hinf⟩ := hind
  have hsr : should_retry retryable e = true := by
    simp [should_retry, hInst, List.any_eq_true]
    exact ⟨ind, hmem, hinf⟩
  refine ⟨hsr, ?_⟩
  obtain ⟨j, hj⟩ : ∃ j, (config.max_retries + 1).toNat = (j + 1) + 1 :=
    ⟨(config.max_retries - 1).toNat, by omega⟩
  obtain ⟨⟨res, n, ds⟩, hout⟩ := retry_attempts_total config retryable op draws
    (j + 1) 1 (by push_cast; omega) (by omega)
  have hn := retry_attempts_count_pos config retryable op draws (j + 1) 1 res n ds hout
  have hge : ¬ ((0 : ℤ) ≥ config.max_retries) := by omega
  refine ⟨res, n + 1,
    calculate_delay 0 config (if e.isRateLimitError then e.retry_after else none)
      (draws 0) :: ds, ?_, by omega⟩
  rw [retry_with_backoff, hj, retry_attempts_succ, hop]
  simp [hge, hsr, hout]

/-- Witness for C9 at a concrete exception and empty allowlist. -/
theorem message_indicator_overrides_allowlist_witness :
    (fun _ : PyExc => false) timeoutExcW = false ∧
    (∃ ind ∈ transient_indicators, ind <:+: timeoutExcW.msg.map Char.toLower) ∧
    (1 : ℤ) ≤ cfgW.max_retries ∧
    (should_retry (fun _ => false) timeoutExcW = true ∧
      ∃ res n ds, retry_with_backoff cfgW (fun _ => false)
          (fun _ : Nat => (Except.error timeoutExcW : Except PyExc Unit)) (fun _ => 0)
        = some (res, n, ds) ∧ 2 ≤ n) :=
  ⟨rfl, by decide, by decide,
    message_indicator_overrides_allowlist cfgW (fun _ => false)
      (fun _ : Nat => (Except.error timeoutExcW : Except PyExc Unit)) (fun _ => 0)
      timeoutExcW rfl (by decide) (by decide) rfl⟩

/-- Counterexample to C4 as stated: with pre-jitter capped delay
`d = 1/100`, `calculate_delay` returns the floor `1/10`, which lies above
the claimed upper bound `d·(1 + 1/4)`; and `calculate_backoff_delay` with
jitter range `1` and random draw `0` returns exactly `0`, which is not
strictly positive. -/
theorem jitter_bounds_counterexample :
    calculate_delay 0 cfgSmall none 0 = 1/10 ∧
    ¬ (calculate_delay 0 cfgSmall none 0
        ≤ min (cfgSmall.base_delay * cfgSmall.exponential_base ^ 0) cfgSmall.max_delay
          * (1 + 1/4)) ∧
    calculate_backoff_delay 0 1 60 2 1 0 = 0 := by
  refine ⟨?_, ?_, ?_⟩ <;>
    norm_num [calculate_delay, calculate_backoff_delay, cfgSmall]

/-- C4 (amended): for `calculate_delay` the post-jitter delay is always at
least the positive floor `1/10`, and lies within `[d·(1-1/4), d·(1+1/4)]`
of the capped pre-jitter delay `d` whenever the floor does not interfere
(`1/10 ≤ d·(3/4)`); for `calculate_backoff_delay` with jitter range
`j ∈ [0,1]` and `d ≥ 0` the delay lies within `[d·(1-j), d·(1+j)]`, and it
is strictly positive whenever `0 < d` and `j < 1` — but its floor is at
zero, not at a positive minimum. -/
theorem jitter_bounds_amended (attempt : Nat) (config : RetryConfig) (u : ℚ)
    (base_delay max_delay multiplier jitter_range r : ℚ)
    (hjit : config.jitter = true) (hu1 : -1 ≤ u) (hu2 : u ≤ 1)
    (hjr0 : 0 ≤ jitter_range) (hjr1 : jitter_range ≤ 1)
    (hr0 : 0 ≤ r) (hr1 : r < 1) :
    (1/10 ≤ calculate_delay attempt config none u ∧
      (1/10 ≤ min (config.base_delay * config.exponential_base ^ attempt)
            config.max_delay * (3/4) →
        min (config.base_delay * config.exponential_base ^ attempt) config.max_delay
            * (3/4) ≤ calculate_delay attempt config none u ∧
          calculate_delay attempt config none u
            ≤ min (config.base_delay * config.exponential_base ^ attempt)
                config.max_delay * (5/4))) ∧
    (0 ≤ min (base_delay * multiplier ^ attempt) max_delay →
      min (base_delay * multiplier ^ attempt) max_delay * (1 - jitter_range)
          ≤ calculate_backoff_delay attempt base_delay max_delay multiplier jitter_range r ∧
        calculate_backoff_delay attempt base_delay max_delay multiplier jitter_range r
          ≤ min (base_delay * multiplier ^ attempt) max_delay * (1 + jitter_range) ∧
        (0 < min (base_delay * multiplier ^ attempt) max_delay → jitter_range < 1 →
          0 < calculate_backoff_delay attempt base_delay max_delay multiplier
                jitter_range r)) := by
  have hcd : calculate_delay attempt config none u
      = max (1/10) (min (config.base_delay * config.exponential_base ^ attempt)
          config.max_delay
        + min (config.base_delay * config.exponential_base ^ attempt) config.max_delay
          * (1/4) * u) := by
    simp [calculate_delay, hjit]
  set d1 := min (config.base_delay * config.exponential_base ^ attempt) config.max_delay
    with hd1
  set d2 := min (base_delay * multiplier ^ attempt) max_delay with hd2
  have hcb : calculate_backoff_delay attempt base_delay max_delay multiplier jitter_range r
      = max 0 (d2 + d2 * jitter_range * (2 * r - 1)) := by
    simp [calculate_backoff_delay, hd2]
  refine ⟨⟨?_, ?_⟩, ?_⟩
  · rw [hcd]; exact le_max_left _ _
  · intro hfloor
    have hd1nn : 0 ≤ d1 := by nlinarith
    have hlo : d1 * (3/4) ≤ d1 + d1 * (1/4) * u := by nlinarith
    have hhi : d1 + d1 * (1/4) * u ≤ d1 * (5/4) := by nlinarith
    constructor
    · rw [hcd]; exact le_trans hlo (le_max_right _ _)
    · rw [hcd]
      exact max_le (by nlinarith) hhi
  · intro hd2nn
    have hjj : 0 ≤ d2 * jitter_range := mul_nonneg hd2nn hjr0
    have hlo : d2 * (1 - jitter_range) ≤ d2 + d2 * jitter_range * (2 * r - 1) := by
      nlinarith
    have hnn : 0 ≤ d2 + d2 * jitter_range * (2 * r - 1) := by nlinarith
    have hmax : max 0 (d2 + d2 * jitter_range * (2 * r - 1))
        = d2 + d2 * jitter_range * (2 * r - 1) := max_eq_right hnn
    refine ⟨?_, ?_, ?_⟩
    · rw [hcb, hmax]; exact hlo
    · rw [hcb, hmax]; nlinarith
    · intro hd2pos hjlt
      rw [hcb, hmax]
      nlinarith

/-- Witness for C4 (amended) at concrete policy and draws. -/
theorem jitter_bounds_amended_witness :
    cfgW.jitter = true ∧ (-1 : ℚ) ≤ 0 ∧ (0 : ℚ) ≤ 1 ∧
    (0 : ℚ) ≤ 1/10 ∧ (1/10 : ℚ) ≤ 1 ∧ (0 : ℚ) ≤ 1/2 ∧ (1/2 : ℚ) < 1 ∧
    ((1/10 ≤ calculate_delay 1 cfgW none 0 ∧
      (1/10 ≤ min (cfgW.base_delay * cfgW.exponential_base ^ 1) cfgW.max_delay * (3/4) →
        min (cfgW.base_delay * cfgW.exponential_base ^ 1) cfgW.max_delay * (3/4)
            ≤ calculate_delay 1 cfgW none 0 ∧
          calculate_delay 1 cfgW none 0
            ≤ min (cfgW.base_delay * cfgW.exponential_base ^ 1) cfgW.max_delay * (5/4))) ∧
    (0 ≤ min ((2 : ℚ) * (3 : ℚ) ^ 1) 50 →
      min ((2 : ℚ) * (3 : ℚ) ^ 1) 50 * (1 - 1/10)
          ≤ calculate_backoff_delay 1 2 50 3 (1/10) (1/2) ∧
        calculate_backoff_delay 1 2 50 3 (1/10) (1/2)
          ≤ min ((2 : ℚ) * (3 : ℚ) ^ 1) 50 * (1 + 1/10) ∧
        (0 < min ((2 : ℚ) * (3 : ℚ) ^ 1) 50 → (1/10 : ℚ) < 1 →
          0 < calculate_backoff_delay 1 2 50 3 (1/10) (1/2)))) :=
  ⟨rfl, by norm_num, by norm_num, by norm_num, by norm_num, by norm_num, by norm_num,
    jitter_bounds_amended 1 cfgW 0 2 50 3 (1/10) (1/2) rfl (by norm_num) (by norm_num)
      (by norm_num) (by norm_num) (by norm_num) (by norm_num)⟩

/-- C5: with jitter disabled, a policy with positive base delay,
multiplier greater than one and `maxDelay ≥ baseDelay` yields backoff
delays that are monotonically non-decreasing in the attempt index and
never exceed `maxDelay`, in both `calculate_delay` and
`calculate_backoff_delay`. -/
theorem backoff_monotone_capped (config : RetryConfig)
    (base_delay max_delay multiplier r u₁ u₂ : ℚ) (a₁ a₂ : Nat)
    (hjit : config.jitter = false)
    (hb : 0 < config.base_delay) (he : 1 < config.exponential_base)
    (_hcap : config.base_delay ≤ config.max_delay)
    (hb' : 0 < base_delay) (hm' : 1 < multiplier) (hcap' : base_delay ≤ max_delay)
    (hle : a₁ ≤ a₂) :
    (calculate_delay a₁ config none u₁ ≤ calculate_delay a₂ config none u₂ ∧
      calculate_delay a₂ config none u₂ ≤ config.max_delay) ∧
    (calculate_backoff_delay a₁ base_delay max_delay multiplier 0 r
        ≤ calculate_backoff_delay a₂ base_delay max_delay multiplier 0 r ∧
      calculate_backoff_delay a₂ base_delay max_delay multiplier 0 r ≤ max_delay) := by
  have hcd : ∀ a u, calculate_delay a config none u
      = min (config.base_delay * config.exponential_base ^ a) config.max_delay := by
    intro a u
    simp [calculate_delay, hjit]
  have hcb : ∀ a : Nat, calculate_backoff_delay a base_delay max_delay multiplier 0 r
      = min (base_delay * multiplier ^ a) max_delay := by
    intro a
    have hpos : (0 : ℚ) < min (base_delay * multiplier ^ a) max_delay :=
      lt_min (mul_pos hb' (pow_pos (by linarith) a)) (by linarith)
    simp only [calculate_backoff_delay, mul_zero, zero_mul, add_zero]
    exact max_eq_right hpos.le
  have hmono : ∀ (b e : ℚ), 0 < b → 1 < e →
      b * e ^ a₁ ≤ b * e ^ a₂ := fun b e hb0 he1 =>
    mul_le_mul_of_nonneg_left (pow_le_pow_right₀ he1.le hle) hb0.le
  refine ⟨⟨?_, ?_⟩, ?_, ?_⟩
  · rw [hcd, hcd]
    exact min_le_min (hmono _ _ hb he) le_rfl
  · rw [hcd]; exact min_le_right _ _
  · rw [hcb, hcb]
    exact min_le_min (hmono _ _ hb' hm') le_rfl
  · rw [hcb]; exact min_le_right _ _

/-- Witness for C5 at a concrete jitter-free policy and attempts `1 ≤ 3`. -/
theorem backoff_monotone_capped_witness :
    cfgNoJitter.jitter = false ∧ (0 : ℚ) < cfgNoJitter.base_delay ∧
    (1 : ℚ) < cfgNoJitter.exponential_base ∧
    cfgNoJitter.base_delay ≤ cfgNoJitter.max_delay ∧
    (0 : ℚ) < 2 ∧ (1 : ℚ) < 3 ∧ (2 : ℚ) ≤ 50 ∧ (1 : Nat) ≤ 3 ∧
    ((calculate_delay 1 cfgNoJitter none 0 ≤ calculate_delay 3 cfgNoJitter none 0 ∧
        calculate_delay 3 cfgNoJitter none 0 ≤ cfgNoJitter.max_delay) ∧
      (calculate_backoff_delay 1 2 50 3 0 0 ≤ calculate_backoff_delay 3 2 50 3 0 0 ∧
        calculate_backoff_delay 3 2 50 3 0 0 ≤ 50)) :=
  ⟨rfl, by norm_num [cfgNoJitter], by norm_num [cfgNoJitter], by norm_num [cfgNoJitter],
    by norm_num, by norm_num, by norm_num, by norm_num,
    backoff_monotone_capped cfgNoJitter 2 50 3 0 0 0 1 3 rfl (by norm_num [cfgNoJitter])
      (by norm_num [cfgNoJitter]) (by norm_num [cfgNoJitter]) (by norm_num) (by norm_num)
      (by norm_num) (by norm_num)⟩

/-- Helper: a fold whose step function fixes states of the shape
`([], st)` leaves the initial state untouched. -/
theorem foldl_flm_const (f : (List (Nat × Nat) × FLM) → Nat → (List (Nat × Nat) × FLM))
    (hf : ∀ st i, f ([], st) i = ([], st)) :
    ∀ (l : List Nat) (st : FLM), l.foldl f ([], st) = ([], st) := by
  intro l
  induction l with
  | nil => intro st; rfl
  | cons x xs ih => intro st; rw [List.foldl_cons, hf, ih]

/-- Helper: with no occurrence lists the scan reports the empty block. -/
theorem flmScan_no_occurrences (a : List Char) (bj : Char → List Nat)
    (hbj : ∀ c, bj c = []) (alo ahi blo bhi : Nat) :
    flmScan a bj alo ahi blo bhi = ⟨alo, blo, 0⟩ := by
  unfold flmScan
  rw [foldl_flm_const]
  intro st i
  simp [hbj, flmInner]

/-- Helper: one-step unfolding of `matchesAux` on positive fuel. -/
theorem matchesAux_succ (a b : List Char) (fuel alo ahi blo bhi : Nat) :
    matchesAux a b (fuel + 1) alo ahi blo bhi
      = (if (find_longest_match a b alo ahi blo bhi).bestsize = 0 then 0
        else
          (if alo < (find_longest_match a b alo ahi blo bhi).besti ∧
              blo < (find_longest_match a b alo ahi blo bhi).bestj then
            matchesAux a b fuel alo (find_longest_match a b alo ahi blo bhi).besti
              blo (find_longest_match a b alo ahi blo bhi).bestj else 0) +
          (find_longest_match a b alo ahi blo bhi).bestsize +
          (if (find_longest_match a b alo ahi blo bhi).besti
                + (find_longest_match a b alo ahi blo bhi).bestsize < ahi ∧
              (find_longest_match a b alo ahi blo bhi).bestj
                + (find_longest_match a b alo ahi blo bhi).bestsize < bhi then
            matchesAux a b fuel
              ((find_longest_match a b alo ahi blo bhi).besti
                + (find_longest_match a b alo ahi blo bhi).bestsize) ahi
              ((find_longest_match a b alo ahi blo bhi).bestj
                + (find_longest_match a b alo ahi blo bhi).bestsize) bhi else 0)) := rfl

/-- Helper: on an empty left string the longest match is empty. -/
theorem find_longest_match_left_empty (b : List Char) (bhi : Nat) :
    find_longest_match [] b 0 0 0 bhi = ⟨0, 0, 0⟩ := by
  cases bhi with
  | zero => rfl
  | succ k => simp [find_longest_match, flmScan, extendLo, extendHi]

/-- Helper: on an empty right string the longest match is empty. -/
theorem find_longest_match_right_empty (a : List Char) (ahi : Nat) :
    find_longest_match a [] 0 ahi 0 0 = ⟨0, 0, 0⟩ := by
  unfold find_longest_match
  rw [flmScan_no_occurrences a (b2j []) (fun c => by simp [b2j, indicesOf]) 0 ahi 0 0]
  rfl

/-- Helper: no matches against an empty left string. -/
theorem matchesTotal_left_empty (b : List Char) : matchesTotal [] b = 0 := by
  unfold matchesTotal
  simp only [List.length_nil, Nat.zero_add]
  rw [matchesAux_succ, find_longest_match_left_empty]
  simp

/-- Helper: no matches against an empty right string. -/
theorem matchesTotal_right_empty (a : List Char) : matchesTotal a [] = 0 := by
  unfold matchesTotal
  simp only [List.length_nil, Nat.add_zero]
  rw [matchesAux_succ, find_longest_match_right_empty]
  simp

/-- Helper: `ratio` of an empty against a non-empty string is `0`. -/
theorem ratio_left_empty (b : List Char) (hb : b ≠ []) : ratio [] b = 0 := by
  simp [ratio, matchesTotal_left_empty, List.length_eq_zero, hb]

/-- Helper: `ratio` of a non-empty against an empty string is `0`. -/
theorem ratio_right_empty (a : List Char) (ha : a ≠ []) : ratio a [] = 0 := by
  simp [ratio, matchesTotal_right_empty, List.length_eq_zero, ha]

/-- Counterexample to C8 as stated: both inputs consist only of
whitespace (so each normalizes to the empty string), yet
`calculate_sequence_similarity` returns `1`, not `0`: the inputs pass the
falsy-guard, and difflib `ratio` of two empty normalized strings is
`1.0`. -/
theorem sequence_similarity_whitespace_counterexample :
    calculate_sequence_similarity (" ".toList) (" ".toList) = 1 ∧
    calculate_sequence_similarity (" ".toList) (" ".toList) ≠ 0 := by
  constructor <;> decide

/-- C8 (amended): whenever either input normalizes to the empty string,
the Jaccard metric returns `0` and neither metric can raise; the sequence
metric also returns `0`, except when both inputs are themselves non-empty
but both normalize to empty, in which case it returns `1` (difflib
`ratio` on two empty strings). -/
theorem similarity_on_empty_normalization (t1 t2 : List Char)
    (h : normalize_text t1 = [] ∨ normalize_text t2 = []) :
    calculate_jaccard_similarity t1 t2 = 0 ∧
    calculate_sequence_similarity t1 t2
      = (if t1 ≠ [] ∧ t2 ≠ [] ∧ normalize_text t1 = [] ∧ normalize_text t2 = []
          then 1 else 0) := by
  constructor
  · unfold calculate_jaccard_similarity
    by_cases hg : t1 = [] ∨ t2 = []
    · simp [hg]
    · rw [if_neg hg]
      rcases h with h1 | h1 <;> simp [h1, splitWords]
  · unfold calculate_sequence_similarity
    by_cases hg : t1 = [] ∨ t2 = []
    · have hcond : ¬ (t1 ≠ [] ∧ t2 ≠ [] ∧ normalize_text t1 = [] ∧
          normalize_text t2 = []) := by
        rcases hg with hg | hg <;> simp [hg]
      rw [if_pos hg, if_neg hcond]
    · push_neg at hg
      obtain ⟨h1, h2⟩ := hg
      rw [if_neg (by simp [h1, h2] : ¬ (t1 = [] ∨ t2 = []))]
      by_cases hn1 : normalize_text t1 = [] <;> by_cases hn2 : normalize_text t2 = []
      · rw [hn1, hn2, if_pos ⟨h1, h2, rfl, rfl⟩]
        rfl
      · rw [hn1, if_neg (by simp [hn2])]
        exact ratio_left_empty _ hn2
      · rw [hn2, if_neg (by simp [hn1])]
        exact ratio_right_empty _ hn1
      · rcases h with h' | h'
        · exact absurd h' hn1
        · exact absurd h' hn2

/-- Witness for C8 (amended): a whitespace-only first input against a
plain non-empty second input. -/
theorem similarity_on_empty_normalization_witness :
    (normalize_text (" ".toList) = [] ∨ normalize_text ("a".toList) = []) ∧
    (calculate_jaccard_similarity (" ".toList) ("a".toList) = 0 ∧
      calculate_sequence_similarity (" ".toList) ("a".toList)
        = (if " ".toList ≠ ([] : List Char) ∧ "a".toList ≠ ([] : List Char) ∧
            normalize_text (" ".toList) = [] ∧ normalize_text ("a".toList) = []
            then 1 else 0)) :=
  ⟨Or.inl (by decide),
    similarity_on_empty_normalization (" ".toList) ("a".toList) (Or.inl (by decide))⟩

end AutoGrow
